import Mathlib

/-!
Verification of the Levenspiel reactor-sizing script
(`src/04 - Reactores Químicos/levenspiel.py`).

The script defines a dictionary `Kinetics` of three inverse-rate lambdas and a
function `plot` that, for three conversion checkpoints `X1 < X2 < X3`, computes
the volume of each of three reactors in series (closed-form rectangle for a
`'CSTR'` segment, numerical quadrature for any other reactor-type string) and
their total.  We embed the numerical core, modelling `scipy.integrate.quad`
by the exact interval integral, floating-point numbers by real numbers, and the
Python `KeyError` raised by a failed dictionary lookup by an `Option` result.
Rendering (matplotlib rectangles/polygons) and `print` reporting are
presentation-only and are not part of the embedded state.
-/

/-- `Kinetics['1er Orden'] = lambda x, k, cA0: 1/(k*cA0*(1-x))`. -/
noncomputable def kineticsFirstOrder (x k cA0 : ℝ) : ℝ := 1 / (k * cA0 * (1 - x))

/-- `Kinetics['2º Orden'] = lambda x, k, cA0: 1/(k*cA0**2*(1-x)**2)`. -/
noncomputable def kineticsSecondOrder (x k cA0 : ℝ) : ℝ := 1 / (k * cA0 ^ 2 * (1 - x) ^ 2)

/-- `Kinetics['Langmuir-Hinshelwood'] =
      lambda x, k, cA0: 1/(k*cA0*(1-x)/(0.5+1.2*k*cA0*(1-x))**2)`. -/
noncomputable def kineticsLangmuirHinshelwood (x k cA0 : ℝ) : ℝ :=
  1 / (k * cA0 * (1 - x) / (0.5 + 1.2 * k * cA0 * (1 - x)) ^ 2)

/-- The `Kinetics` dictionary: a lookup from rate-law identifier to the
inverse-rate function.  A key absent from the dictionary gives `none`
(in Python, indexing with it raises `KeyError`). -/
noncomputable def Kinetics (key : String) : Option (ℝ → ℝ → ℝ → ℝ) :=
  if key = "1er Orden" then some kineticsFirstOrder
  else if key = "2º Orden" then some kineticsSecondOrder
  else if key = "Langmuir-Hinshelwood" then some kineticsLangmuirHinshelwood
  else none

/-- Segment 1 of `plot`: `V1 = X1*y1` with `y1 = g(X1)` when `Reactor1=='CSTR'`,
else `V1 = integrate.quad(g, 0, X1)[0]`, modelled by the interval integral. -/
noncomputable def segmentVolume1 (g : ℝ → ℝ) (Reactor1 : String) (X1 : ℝ) : ℝ :=
  if Reactor1 = "CSTR" then X1 * g X1 else ∫ x in (0:ℝ)..X1, g x

/-- Segment 2 of `plot`: `V2 = (X2-X1)*y2` with `y2 = g(X2)` when
`Reactor2=='CSTR'`, else `V2 = integrate.quad(g, X1, X2)[0]`. -/
noncomputable def segmentVolume2 (g : ℝ → ℝ) (Reactor2 : String) (X1 X2 : ℝ) : ℝ :=
  if Reactor2 = "CSTR" then (X2 - X1) * g X2 else ∫ x in X1..X2, g x

/-- Segment 3 of `plot`: `V3 = (X3-X2)*y3` with `y3 = g(X3)` when
`Reactor3=='CSTR'`, else `V3 = integrate.quad(g, X2, X3)[0]`. -/
noncomputable def segmentVolume3 (g : ℝ → ℝ) (Reactor3 : String) (X2 X3 : ℝ) : ℝ :=
  if Reactor3 = "CSTR" then (X3 - X2) * g X3 else ∫ x in X2..X3, g x

/-- The numeric outputs of one `plot` call: the three printed segment volumes
and the printed total `V1+V2+V3`. -/
structure EvalResult where
  V1 : ℝ
  V2 : ℝ
  V3 : ℝ
  total : ℝ

/-- The numeric core of `plot(kinetics, k, X1, X2, X3, Reactor1, Reactor2,
Reactor3)`.  The dictionary lookup `Kinetics[kinetics]` happens first (line 16
of the source, before any volume is computed); every later evaluation of the
selected lambda is `Kinetics[kinetics](x, 1.0, k)`, i.e. `1.0` in the
rate-constant slot and the caller's `k` in the `cA0` slot.  A failed lookup
(Python `KeyError`) yields `none` and no volume is computed. -/
noncomputable def plot (kinetics : String) (k X1 X2 X3 : ℝ)
    (Reactor1 Reactor2 Reactor3 : String) : Option EvalResult :=
  match Kinetics kinetics with
  | none => none
  | some f =>
    let g : ℝ → ℝ := fun x => f x 1.0 k
    let V1 := segmentVolume1 g Reactor1 X1
    let V2 := segmentVolume2 g Reactor2 X1 X2
    let V3 := segmentVolume3 g Reactor3 X2 X3
    some ⟨V1, V2, V3, V1 + V2 + V3⟩

/-- C1: for every segment whose reactor type is `CSTR`, the computed segment
volume is exactly `(Xhi - Xlo) * g Xhi` — segment 1 over `[0, X1]`, segment 2
over `[X1, X2]`, segment 3 over `[X2, X3]` — with no approximation. -/
theorem cstr_segments_closed_form (g : ℝ → ℝ) (X1 X2 X3 : ℝ) :
    segmentVolume1 g "CSTR" X1 = (X1 - 0) * g X1 ∧
    segmentVolume2 g "CSTR" X1 X2 = (X2 - X1) * g X2 ∧
    segmentVolume3 g "CSTR" X2 X3 = (X3 - X2) * g X3 := by
  refine ⟨?_, ?_, ?_⟩ <;> simp [segmentVolume1, segmentVolume2, segmentVolume3]

/-- C4: the kinetics registry maps the first-order identifier to
`(x, k, cA0) ↦ 1/(k·cA0·(1-x))`, the second-order identifier to
`(x, k, cA0) ↦ 1/(k·cA0²·(1-x)²)`, and the Langmuir–Hinshelwood identifier to
`(x, k, cA0) ↦ 1/(k·cA0·(1-x)/(0.5+1.2·k·cA0·(1-x))²)`, as pure functions. -/
theorem kinetics_registry_contents :
    Kinetics "1er Orden" = some (fun x k cA0 => 1 / (k * cA0 * (1 - x))) ∧
    Kinetics "2º Orden" = some (fun x k cA0 => 1 / (k * cA0 ^ 2 * (1 - x) ^ 2)) ∧
    Kinetics "Langmuir-Hinshelwood" =
      some (fun x k cA0 =>
        1 / (k * cA0 * (1 - x) / (0.5 + 1.2 * k * cA0 * (1 - x)) ^ 2)) := by
  refine ⟨?_, ?_, ?_⟩ <;> rfl

/-- C5: every evaluation of the selected kinetics function inside `plot` is
`f x 1.0 k` — `1.0` in the rate-constant slot, the caller's `k` in the `cA0`
slot; hence the second-order law yields `1/(k²·(1-x)²)` (the caller's `k` is
squared), while the first-order and Langmuir–Hinshelwood laws give the same
value as rate constant `k` with `cA0 = 1`, since they depend on the two
parameters only through their product. -/
theorem plot_swaps_k_and_cA0 (kin : String) (k X1 X2 X3 : ℝ)
    (R1 R2 R3 : String) (x : ℝ) :
    plot kin k X1 X2 X3 R1 R2 R3 =
      Option.map (fun f =>
        ⟨segmentVolume1 (fun x => f x 1.0 k) R1 X1,
         segmentVolume2 (fun x => f x 1.0 k) R2 X1 X2,
         segmentVolume3 (fun x => f x 1.0 k) R3 X2 X3,
         segmentVolume1 (fun x => f x 1.0 k) R1 X1 +
           segmentVolume2 (fun x => f x 1.0 k) R2 X1 X2 +
           segmentVolume3 (fun x => f x 1.0 k) R3 X2 X3⟩) (Kinetics kin) ∧
    kineticsSecondOrder x 1.0 k = 1 / (k ^ 2 * (1 - x) ^ 2) ∧
    kineticsFirstOrder x 1.0 k = kineticsFirstOrder x k 1 ∧
    kineticsLangmuirHinshelwood x 1.0 k = kineticsLangmuirHinshelwood x k 1 := by
  refine ⟨?_, ?_, ?_, ?_⟩
  · unfold plot; cases Kinetics kin <;> rfl
  · unfold kineticsSecondOrder; norm_num
  · unfold kineticsFirstOrder; norm_num
  · unfold kineticsLangmuirHinshelwood; norm_num

/-- C3: for input (first-order, `k = 0.5`, checkpoints `(0.4, 0.8, 0.9)`, all
three reactors CSTR — in the code `cA0 = 1.0` is implicit, since `plot` passes
`(x, 1.0, k)` and the first-order law depends only on the product), the segment
volumes are `4/3 ≈ 1.333`, `4.0`, `2.0` and the total is `22/3 ≈ 7.33`. -/
theorem end_to_end_scenario :
    plot "1er Orden" 0.5 0.4 0.8 0.9 "CSTR" "CSTR" "CSTR" =
      some ⟨4/3, 4, 2, 22/3⟩ ∧
    |(4:ℝ)/3 - 1.333| ≤ 1/1000 ∧ |(22:ℝ)/3 - 7.33| ≤ 5/1000 := by
  refine ⟨?_, ?_, ?_⟩
  · unfold plot Kinetics segmentVolume1 segmentVolume2 segmentVolume3 kineticsFirstOrder
    norm_num
  · rw [abs_le]; constructor <;> norm_num
  · rw [abs_le]; constructor <;> norm_num

/-- C6: for every valid strictly increasing checkpoint triple in `(0,1)` and
every reactor-type mix, the reported total equals exactly `V1 + V2 + V3`. -/
theorem total_is_sum_of_segments (kin : String) (k X1 X2 X3 : ℝ)
    (R1 R2 R3 : String) (res : EvalResult)
    (h0 : 0 < X1) (h12 : X1 < X2) (h23 : X2 < X3) (h31 : X3 < 1)
    (hres : plot kin k X1 X2 X3 R1 R2 R3 = some res) :
    res.total = res.V1 + res.V2 + res.V3 := by
  unfold plot at hres
  rcases hK : Kinetics kin with _ | f <;> rw [hK] at hres
  · cases hres
  · injection hres with h
    subst h
    rfl

/-- Witness for C6 at first-order, `k = 1`, checkpoints `(1/4, 1/2, 3/4)`,
all CSTR. -/
theorem total_is_sum_of_segments_witness :
    (EvalResult.mk (1/3) (1/2) 1 (11/6)).total =
      (EvalResult.mk (1/3) (1/2) 1 (11/6)).V1 + (EvalResult.mk (1/3) (1/2) 1 (11/6)).V2 +
        (EvalResult.mk (1/3) (1/2) 1 (11/6)).V3 :=
  total_is_sum_of_segments "1er Orden" 1 (1/4) (1/2) (3/4) "CSTR" "CSTR" "CSTR"
    ⟨1/3, 1/2, 1, 11/6⟩ (by norm_num) (by norm_num) (by norm_num) (by norm_num)
    (by unfold plot Kinetics segmentVolume1 segmentVolume2 segmentVolume3 kineticsFirstOrder
        norm_num)

/-- C8 counterexample: with non-increasing checkpoints `X1 = 0.8 > X2 = 0.4`
the evaluation does not fail — it returns a numeric result (with a negative
second segment volume), contradicting the claimed `InvalidCheckpoints`
failure. -/
theorem unordered_checkpoints_return_numeric_result :
    plot "1er Orden" 1 (4/5) (2/5) (9/10) "CSTR" "CSTR" "CSTR" =
      some ⟨4, -(2/3), 5, 25/3⟩ := by
  unfold plot Kinetics segmentVolume1 segmentVolume2 segmentVolume3 kineticsFirstOrder
  norm_num

/-- C8 (amended): the code performs no checkpoint validation — whenever the
rate-law lookup succeeds, `plot` returns a numeric result for arbitrary
checkpoints, including non-increasing ones and ones outside `(0,1)`. -/
theorem plot_has_no_checkpoint_validation (kin : String) (f : ℝ → ℝ → ℝ → ℝ)
    (k X1 X2 X3 : ℝ) (R1 R2 R3 : String) (hf : Kinetics kin = some f) :
    (plot kin k X1 X2 X3 R1 R2 R3).isSome = true := by
  unfold plot
  rw [hf]
  rfl

/-- Witness for the amended C8 at the unordered, out-of-range checkpoints
`(0.8, 0.4, 1.5)`. -/
theorem plot_has_no_checkpoint_validation_witness :
    (plot "1er Orden" 1 (4/5) (2/5) (3/2) "CSTR" "CSTR" "CSTR").isSome = true :=
  plot_has_no_checkpoint_validation "1er Orden" kineticsFirstOrder 1 (4/5) (2/5) (3/2)
    "CSTR" "CSTR" "CSTR" rfl

/-- C9: an identifier not registered in the kinetics dictionary makes the
lookup fail, and the evaluation produces no result at all — no segment volume
and no total (the lookup at source line 16 precedes every volume
computation). -/
theorem unknown_ratelaw_yields_no_result (kin : String) (k X1 X2 X3 : ℝ)
    (R1 R2 R3 : String) (h : Kinetics kin = none) :
    plot kin k X1 X2 X3 R1 R2 R3 = none := by
  unfold plot
  rw [h]

/-- Witness for C9 at the unregistered identifier `"zeroth-order"`. -/
theorem unknown_ratelaw_yields_no_result_witness :
    plot "zeroth-order" 1 (2/5) (4/5) (9/10) "CSTR" "CSTR" "CSTR" = none :=
  unknown_ratelaw_yields_no_result "zeroth-order" 1 (2/5) (4/5) (9/10)
    "CSTR" "CSTR" "CSTR" rfl

/-- C10: any reactor-type string other than exactly `"CSTR"` (lowercase
variants, misspellings, arbitrary strings) selects the PFR integration rule
for its segment, and no reactor-type value is ever rejected: the evaluation
succeeds exactly when the rate-law lookup succeeds, whatever the three
strings are. -/
theorem non_cstr_string_selects_pfr (g : ℝ → ℝ) (kin : String) (k X1 X2 X3 : ℝ)
    (R1 R2 R3 : String) (h1 : R1 ≠ "CSTR") (h2 : R2 ≠ "CSTR") (h3 : R3 ≠ "CSTR") :
    segmentVolume1 g R1 X1 = ∫ x in (0:ℝ)..X1, g x ∧
    segmentVolume2 g R2 X1 X2 = ∫ x in X1..X2, g x ∧
    segmentVolume3 g R3 X2 X3 = ∫ x in X2..X3, g x ∧
    (plot kin k X1 X2 X3 R1 R2 R3).isSome = (Kinetics kin).isSome := by
  refine ⟨?_, ?_, ?_, ?_⟩
  · simp [segmentVolume1, h1]
  · simp [segmentVolume2, h2]
  · simp [segmentVolume3, h3]
  · unfold plot; cases Kinetics kin <;> rfl

/-- Witness for C10 with reactor strings `"pfr"`, `"PFR"`, `"Apaga fuegos"`. -/
theorem non_cstr_string_selects_pfr_witness :
    segmentVolume1 (fun _ => (0:ℝ)) "pfr" (1/2) = ∫ x in (0:ℝ)..(1/2), (fun _ => (0:ℝ)) x ∧
    segmentVolume2 (fun _ => (0:ℝ)) "PFR" (1/2) (3/5) = ∫ x in (1/2:ℝ)..(3/5), (fun _ => (0:ℝ)) x ∧
    segmentVolume3 (fun _ => (0:ℝ)) "Apaga fuegos" (3/5) (7/10) = ∫ x in (3/5:ℝ)..(7/10), (fun _ => (0:ℝ)) x ∧
    (plot "1er Orden" 1 (1/2) (3/5) (7/10) "pfr" "PFR" "Apaga fuegos").isSome =
      (Kinetics "1er Orden").isSome :=
  non_cstr_string_selects_pfr (fun _ => 0) "1er Orden" 1 (1/2) (3/5) (7/10)
    "pfr" "PFR" "Apaga fuegos" (by decide) (by decide) (by decide)

/-- C2: for the first-order law with rate constant 1 and `cA0 = 1` (so
`g(x) = 1/(1-x)`), the PFR volume over `[0, X]` equals the exact
antiderivative value `-ln(1-X)` within tolerance `1e-6`, for every `X` in
`(0,1)`.  (`integrate.quad` is modelled by the exact interval integral, so the
difference is in fact zero.) -/
theorem pfr_first_order_matches_log (X : ℝ) (h0 : 0 < X) (h1 : X < 1) :
    |segmentVolume1 (fun x => kineticsFirstOrder x 1.0 1) "PFR" X -
      (-Real.log (1 - X))| ≤ 1e-6 := by
  have hg : (fun x : ℝ => kineticsFirstOrder x 1.0 1) = fun x : ℝ => (1 - x)⁻¹ := by
    funext x
    unfold kineticsFirstOrder
    norm_num
  have hseg : segmentVolume1 (fun x => kineticsFirstOrder x 1.0 1) "PFR" X =
      ∫ x in (0:ℝ)..X, (1 - x)⁻¹ := by
    rw [segmentVolume1, if_neg (by decide), hg]
  have hsub : (∫ x in (0:ℝ)..X, (1 - x)⁻¹) = ∫ u in (1 - X)..(1 - 0), u⁻¹ :=
    intervalIntegral.integral_comp_sub_left (fun u : ℝ => u⁻¹) 1
  have hnotin : (0:ℝ) ∉ Set.uIcc (1 - X) (1 - 0) := by
    intro hmem
    rw [Set.uIcc_of_le (by linarith), Set.mem_Icc] at hmem
    linarith [hmem.1]
  have hval : (∫ u in (1 - X)..(1 - 0), u⁻¹) = -Real.log (1 - X) := by
    rw [integral_inv hnotin]
    rw [show (1:ℝ) - 0 = 1 by norm_num, one_div, Real.log_inv]
  rw [hseg, hsub, hval, sub_self, abs_zero]
  norm_num

/-- Witness for C2 at `X = 1/2`. -/
theorem pfr_first_order_matches_log_witness :
    |segmentVolume1 (fun x => kineticsFirstOrder x 1.0 1) "PFR" (1/2) -
      (-Real.log (1 - 1/2))| ≤ 1e-6 :=
  pfr_first_order_matches_log (1/2) (by norm_num) (by norm_num)

/-- C7: for any inverse-rate function `g` monotonically increasing on the
segment and any bounds `Xlo < Xhi < 1`, the CSTR volume
`(Xhi - Xlo) * g Xhi` dominates the PFR volume `∫ x in Xlo..Xhi, g x`. -/
theorem cstr_volume_ge_pfr_volume (g : ℝ → ℝ) (Xlo Xhi : ℝ)
    (hlt : Xlo < Xhi) (hhi : Xhi < 1)
    (hmono : MonotoneOn g (Set.Icc Xlo Xhi)) :
    segmentVolume2 g "PFR" Xlo Xhi ≤ segmentVolume2 g "CSTR" Xlo Xhi := by
  have hab : Xlo ≤ Xhi := le_of_lt hlt
  have hmono' : MonotoneOn g (Set.uIcc Xlo Xhi) := by
    rw [Set.uIcc_of_le hab]
    exact hmono
  have hint : IntervalIntegrable g MeasureTheory.volume Xlo Xhi :=
    hmono'.intervalIntegrable
  have h1 : segmentVolume2 g "PFR" Xlo Xhi = ∫ x in Xlo..Xhi, g x := by
    simp [segmentVolume2]
  have h2 : segmentVolume2 g "CSTR" Xlo Xhi = (Xhi - Xlo) * g Xhi := by
    simp [segmentVolume2]
  rw [h1, h2]
  calc (∫ x in Xlo..Xhi, g x) ≤ ∫ _x in Xlo..Xhi, g Xhi :=
        intervalIntegral.integral_mono_on hab hint intervalIntegrable_const
          (fun x hx => hmono hx (Set.right_mem_Icc.mpr hab) hx.2)
    _ = (Xhi - Xlo) * g Xhi := by
        rw [intervalIntegral.integral_const, smul_eq_mul]

/-- Witness for C7: the first-order inverse rate as `plot` resolves it
(`x ↦ 1/(1.0·1·(1-x))`), on the segment `[1/4, 1/2]`. -/
theorem cstr_volume_ge_pfr_volume_witness :
    segmentVolume2 (fun x => kineticsFirstOrder x 1.0 1) "PFR" (1/4) (1/2) ≤
      segmentVolume2 (fun x => kineticsFirstOrder x 1.0 1) "CSTR" (1/4) (1/2) :=
  cstr_volume_ge_pfr_volume (fun x => kineticsFirstOrder x 1.0 1) (1/4) (1/2)
    (by norm_num) (by norm_num)
    (by
      intro a ha b hb hab
      simp only [kineticsFirstOrder]
      have e : ∀ x : ℝ, (1.0:ℝ) * 1 * (1 - x) = 1 - x := by intro x; norm_num
      rw [e, e]
      exact one_div_le_one_div_of_le (by linarith [hb.2]) (by linarith))
